import Mathlib

/-!
Verification development for the GeniusGate backend.

This file gives a shallow embedding of the core of the repository:
the quiz-session state machine (`src/backend/src/services/quiz.service.ts`),
its controller-side answer validation and session read view
(`src/backend/src/controllers/quiz.controller.ts`), the JS settlement engine
(`src/backend/services/RewardService.js`) together with its mongoose models
(`models/Transaction.js`, `models/User.js`, `models/GameSession.js`), and the
AI question cache (`src/backend/src/services/aiQuestion.service.ts` with the
`aiQuestion.model` schema).

Modelling conventions:
- Mongoose collections become lists of records; a `save`/`create` becomes an
  explicit store transformation.  Document ids are strings.
- JS numbers used for money are modelled as rationals; timestamps are natural
  numbers of milliseconds.
- Schema `unique` indexes are modelled as a duplicate-key failure on insert,
  schema `enum`/`required`/length validators as a boolean validation check run
  before the insert (mongoose validates before writing).
- Fallible operations return the (possibly partially updated) store together
  with an `Except` result, so that partial-failure behaviour is observable.
-/

deriving instance DecidableEq for Except

section GeniusGate

attribute [local semireducible] Rat.add Rat.mul Rat.inv Rat.sub Rat.ofScientific

/-- JS `toLowerCase()`, modelled character-wise (the library string functions
are not kernel-reducible). -/
def strLower (s : String) : String := ⟨s.data.map Char.toLower⟩

/-- JS `toUpperCase()`, modelled character-wise. -/
def strUpper (s : String) : String := ⟨s.data.map Char.toUpper⟩

/-- Mongoose `trim: true`, modelled character-wise. -/
def strTrim (s : String) : String :=
  ⟨((s.data.dropWhile Char.isWhitespace).reverse.dropWhile Char.isWhitespace).reverse⟩

/-- Question subdocument of `quizSessionSchema` (quizSession.model.ts). -/
structure Question where
  question : String
  options : List String
  correctAnswer : String
  explanation : Option String
deriving DecidableEq, Repr

/-- A quiz session document (quizSession.model.ts).  `userAnswers` is a JS
array written by index, so holes are modelled as `none`. -/
structure QuizSession where
  id : String
  user : String
  category : String
  difficulty : String
  questions : List Question
  userAnswers : List (Option String)
  score : Nat
  totalQuestions : Nat
  status : String
  paymentReference : String
  rewardEarned : ℚ
  timeStarted : Nat
  timeCompleted : Option Nat
deriving DecidableEq, Repr

/-- A transaction document of the TypeScript model (transaction.model.ts). -/
structure TSTransaction where
  user : String
  amount : ℚ
  type : String
  status : String
  description : String
  paymentMethod : String
  paymentReference : String
deriving DecidableEq, Repr

/-- The wallet-carrying part of the TypeScript `User` document. -/
structure UserRec where
  id : String
  walletBalance : ℚ
deriving DecidableEq, Repr

/-- The persistent store seen by the TypeScript services. -/
structure TSStore where
  users : List UserRec
  sessions : List QuizSession
  transactions : List TSTransaction
deriving DecidableEq, Repr

/-- Enum and required-field validation of `transactionSchema`
(transaction.model.ts): `type` in `debit|credit`, `status` in
`pending|completed|failed`, `paymentMethod` in `flutterwave|stripe|momo`,
`user`, `description` and `paymentReference` required. -/
def validTSTransaction (t : TSTransaction) : Bool :=
  !(t.user == "")
    && (t.type == "debit" || t.type == "credit")
    && (t.status == "pending" || t.status == "completed" || t.status == "failed")
    && (t.paymentMethod == "flutterwave" || t.paymentMethod == "stripe"
          || t.paymentMethod == "momo")
    && !(t.description == "")
    && !(t.paymentReference == "")

/-- `new Transaction(...).save()`: mongoose runs the schema validators, then
the insert hits the unique index on `paymentReference`. -/
def saveTSTransaction (store : TSStore) (t : TSTransaction) :
    Except String TSStore :=
  if !(validTSTransaction t) then Except.error "ValidationError"
  else if store.transactions.any (fun u => u.paymentReference == t.paymentReference) then
    Except.error "E11000 duplicate key error"
  else Except.ok { store with transactions := store.transactions ++ [t] }

/-- `QuizSession.findById(sessionId)` (used by `submitAnswer`). -/
def findSessionById (store : TSStore) (sessionId : String) : Option QuizSession :=
  store.sessions.find? (fun s => s.id == sessionId)

/-- `QuizSession.findOne({ _id: sessionId, user: userId })` (used by
`completeQuiz`). -/
def findSessionByIdAndUser (store : TSStore) (sessionId userId : String) :
    Option QuizSession :=
  store.sessions.find? (fun s => s.id == sessionId && s.user == userId)

/-- `session.save()`: replace the stored document with the same `_id`. -/
def saveSession (store : TSStore) (s : QuizSession) : TSStore :=
  { store with sessions := store.sessions.map (fun t => if t.id == s.id then s else t) }

/-- `User.findByIdAndUpdate(userId, { $inc: { walletBalance: amount } })`:
a no-op when no user matches. -/
def incWalletBalance (store : TSStore) (userId : String) (amount : ℚ) : TSStore :=
  { store with
      users := store.users.map (fun u =>
        if u.id == userId then { u with walletBalance := u.walletBalance + amount } else u) }

/-- JS assignment `userAnswers[questionIndex] = answer`: overwrite in range,
pad with holes (`none`) when writing past the end. -/
def setIdx : List (Option String) → Nat → String → List (Option String)
  | [], 0, v => [some v]
  | [], Nat.succ n, v => none :: setIdx [] n v
  | _ :: t, 0, v => some v :: t
  | h :: t, Nat.succ n, v => h :: setIdx t n v

/-- The score recomputation of `completeQuiz`: iterate over `questions` with
index and count the indices where `userAnswers[index] === question.correctAnswer`
(strict string equality, a hole never matches). -/
def computeScore (s : QuizSession) : Nat :=
  (s.questions.enum.filter
    (fun p => s.userAnswers.getD p.1 none == some p.2.correctAnswer)).length

/-- Result of `QuizService.submitAnswer`. -/
structure SubmitAnswerResult where
  isCorrect : Bool
  correctAnswer : String
  explanation : Option String
deriving DecidableEq, Repr

/-- Result of `QuizService.completeQuiz`. -/
structure CompleteQuizResult where
  score : Nat
  total : Nat
  reward : ℚ
  percentage : ℚ
deriving DecidableEq, Repr

/-- `QuizService.startQuiz(userId, category, paymentReference)`
(quiz.service.ts, lines 16-43).  The AI generation result and the fresh
document id are passed in as parameters (`generateQuestions` is an external
collaborator). The new session gets the schema defaults
(`difficulty: 'medium'`, empty answers, score 0, `status: 'active'`). -/
def startQuiz (store : TSStore) (userId category paymentReference : String)
    (generated : List Question) (newId : String) (now : Nat) :
    TSStore × Except String QuizSession :=
  match store.transactions.find? (fun t =>
      t.paymentReference == paymentReference && t.user == userId
        && t.status == "completed") with
  | none => (store, Except.error "Payment not verified")
  | some _ =>
    let s : QuizSession :=
      { id := newId, user := userId, category := category, difficulty := "medium",
        questions := generated, userAnswers := [], score := 0,
        totalQuestions := generated.length, status := "active",
        paymentReference := paymentReference, rewardEarned := 0,
        timeStarted := now, timeCompleted := none }
    ({ store with sessions := store.sessions ++ [s] }, Except.ok s)

/-- `QuizService.submitAnswer(sessionId, questionIndex, answer)`
(quiz.service.ts, lines 45-75).  Returns the per-submission correctness, the
correct answer and the explanation; stores the submitted answer verbatim. -/
def submitAnswer (store : TSStore) (sessionId : String) (questionIndex : Nat)
    (answer : String) : TSStore × Except String SubmitAnswerResult :=
  match findSessionById store sessionId with
  | none => (store, Except.error "Quiz session not found")
  | some s =>
    if !(s.status == "active") then (store, Except.error "Quiz session is not active")
    else
      match s.questions.get? questionIndex with
      | none => (store, Except.error "Invalid question index")
      | some q =>
        let updated := { s with userAnswers := setIdx s.userAnswers questionIndex answer }
        (saveSession store updated,
         Except.ok { isCorrect := answer == q.correctAnswer,
                     correctAnswer := q.correctAnswer,
                     explanation := q.explanation })

/-- The reward transaction built by `completeQuiz`: note
`paymentMethod: 'system'` (outside the schema enum) and the
lowercase reference `reward_<sessionId>`. -/
def tsRewardTransaction (userId : String) (reward : ℚ) (category sessionId : String) :
    TSTransaction :=
  { user := userId, amount := reward, type := "credit", status := "completed",
    description := "Quiz reward for " ++ category, paymentMethod := "system",
    paymentReference := "reward_" ++ sessionId }

/-- `QuizService.completeQuiz(sessionId, userId)` (quiz.service.ts, lines
77-130).  No status guard: any found session is re-scored.  The wallet
increment is awaited (committed) before `Promise.all([session.save(),
rewardTransaction.save()])`; when the transaction insert fails, the wallet and
session writes are already persisted and the error is thrown to the caller. -/
def completeQuiz (store : TSStore) (sessionId userId : String) (now : Nat) :
    TSStore × Except String CompleteQuizResult :=
  match findSessionByIdAndUser store sessionId userId with
  | none => (store, Except.error "Quiz session not found")
  | some s =>
    let score := computeScore s
    let reward : ℚ := (score : ℚ) * (1 / 10)
    let updated := { s with score := score, status := "completed",
                            timeCompleted := some now, rewardEarned := reward }
    let store1 := incWalletBalance store userId reward
    let store2 := saveSession store1 updated
    match saveTSTransaction store2 (tsRewardTransaction userId reward s.category sessionId) with
    | Except.error e => (store2, Except.error e)
    | Except.ok store3 =>
      (store3, Except.ok { score := score, total := s.totalQuestions, reward := reward,
                           percentage := (score : ℚ) / (s.totalQuestions : ℚ) * 100 })

/-- `QuizController.validateAnswerInput` (quiz.controller.ts, lines 431-445):
the answer is accepted when its uppercase form is one of A, B, C, D; the index
must be present and non-negative. -/
def validateAnswerInput (sessionId : String) (questionIndex : Int) (answer : String) :
    Option String :=
  if sessionId == "" then some "Session ID is required"
  else if questionIndex < 0 then some "Invalid question index"
  else if answer == "" || !((["A", "B", "C", "D"] : List String).contains (strUpper answer)) then
    some "Answer must be A, B, C, or D"
  else none

/-- One question of the controller read view (`sanitizeQuizSession`):
`correctAnswer`, `explanation` and `isCorrect` are absent (`none`) unless the
session is completed. -/
structure SanitizedQuestion where
  question : String
  options : List String
  userAnswer : Option String
  isAnswered : Bool
  correctAnswer : Option String
  explanation : Option String
  isCorrect : Option Bool
deriving DecidableEq, Repr

/-- The controller read view of a session (`sanitizeQuizSession`). -/
structure SanitizedSession where
  id : String
  category : String
  difficulty : String
  totalQuestions : Nat
  currentQuestion : Nat
  score : Nat
  status : String
  timeStarted : Nat
  timeCompleted : Option Nat
  rewardEarned : ℚ
  questions : List SanitizedQuestion
deriving DecidableEq, Repr

/-- `QuizController.sanitizeQuizSession` (quiz.controller.ts, lines 450-481):
hide correct answers unless `status === 'completed'`. -/
def sanitizeQuizSession (s : QuizSession) : SanitizedSession :=
  let baseQuestions := s.questions.enum.map (fun p =>
    { question := p.2.question, options := p.2.options,
      userAnswer := s.userAnswers.getD p.1 none,
      isAnswered := decide (p.1 < s.userAnswers.length),
      correctAnswer := none, explanation := none, isCorrect := none : SanitizedQuestion })
  let qs :=
    if s.status == "completed" then
      s.questions.enum.map (fun p =>
        { question := p.2.question, options := p.2.options,
          userAnswer := s.userAnswers.getD p.1 none,
          isAnswered := decide (p.1 < s.userAnswers.length),
          correctAnswer := some p.2.correctAnswer,
          explanation := p.2.explanation,
          isCorrect := some (s.userAnswers.getD p.1 none == some p.2.correctAnswer) })
    else baseQuestions
  { id := s.id, category := s.category, difficulty := s.difficulty,
    totalQuestions := s.totalQuestions, currentQuestion := s.userAnswers.length,
    score := s.score, status := s.status, timeStarted := s.timeStarted,
    timeCompleted := s.timeCompleted, rewardEarned := s.rewardEarned, questions := qs }

/-- A user document of the JS model (models/User.js), wallet fields only. -/
structure JSUser where
  id : String
  walletBalance : ℚ
  totalEarnings : ℚ
  gamesPlayed : Nat
deriving DecidableEq, Repr

/-- A transaction document of the JS model (models/Transaction.js).
`reference` carries a unique index. -/
structure JSTransaction where
  userId : String
  type : String
  amount : ℚ
  status : String
  paymentMethod : String
  reference : String
  description : String
deriving DecidableEq, Repr

/-- One question entry of a JS game session (models/GameSession.js). -/
structure JSGameQuestion where
  question : String
  options : List String
  correctAnswer : String
  userAnswer : Option String
  isCorrect : Bool
  points : ℚ
deriving DecidableEq, Repr

/-- A game session document (models/GameSession.js). `createdAt` comes from
the schema timestamps, in milliseconds. -/
structure GameSession where
  id : String
  userId : String
  questions : List JSGameQuestion
  totalScore : ℚ
  timeSpent : ℚ
  status : String
  createdAt : Nat
deriving DecidableEq, Repr

/-- The persistent store seen by the JS services. -/
structure JSStore where
  users : List JSUser
  transactions : List JSTransaction
  gameSessions : List GameSession
deriving DecidableEq, Repr

/-- Enum and required-field validation of the JS `transactionSchema`
(models/Transaction.js): `userId` and `type` required, `type` in
`payment|payout|refund|reward`, `status` in `pending|success|failed|cancelled`,
`paymentMethod` (when given) in `flutterwave|stripe|momo|wallet`. -/
def validJSTransaction (t : JSTransaction) : Bool :=
  !(t.userId == "")
    && (t.type == "payment" || t.type == "payout" || t.type == "refund"
          || t.type == "reward")
    && (t.status == "pending" || t.status == "success" || t.status == "failed"
          || t.status == "cancelled")
    && (t.paymentMethod == "flutterwave" || t.paymentMethod == "stripe"
          || t.paymentMethod == "momo" || t.paymentMethod == "wallet")

/-- The reward transaction created by `RewardService.distributeReward`
(RewardService.js, lines 81-94). -/
def jsRewardTransaction (userId : String) (amount : ℚ) (gameSessionId : String) :
    JSTransaction :=
  { userId := userId, type := "reward", amount := amount, status := "success",
    paymentMethod := "wallet", reference := "REWARD_" ++ gameSessionId,
    description := "Quiz reward for session " ++ gameSessionId }

/-- The `$inc` user update of `distributeReward`: wallet, total earnings and
games-played all incremented inside the mongoose transaction. -/
def applyRewardUpdate (amount : ℚ) (u : JSUser) : JSUser :=
  { u with walletBalance := u.walletBalance + amount,
           totalEarnings := u.totalEarnings + amount,
           gamesPlayed := u.gamesPlayed + 1 }

/-- The combined committed effect of a successful `distributeReward`: user
update plus appended reward transaction. -/
def jsAfterReward (store : JSStore) (userId : String) (amount : ℚ)
    (gameSessionId : String) : JSStore :=
  { store with
      users := store.users.map (fun u =>
        if u.id == userId then applyRewardUpdate amount u else u),
      transactions := store.transactions ++ [jsRewardTransaction userId amount gameSessionId] }

/-- `RewardService.distributeReward(userId, amount, gameSessionId)`
(RewardService.js, lines 62-103).  The wallet update and the transaction
insert run inside one mongoose transaction: on any failure (validation or the
unique index on `reference`) the transaction is aborted and the store is
unchanged. -/
def distributeReward (store : JSStore) (userId : String) (amount : ℚ)
    (gameSessionId : String) : JSStore × Except String Unit :=
  let tx := jsRewardTransaction userId amount gameSessionId
  if !(validJSTransaction tx) then (store, Except.error "ValidationError")
  else if store.transactions.any (fun t => t.reference == tx.reference) then
    (store, Except.error "E11000 duplicate key error")
  else (jsAfterReward store userId amount gameSessionId, Except.ok ())

/-- `RewardService.calculateBaseReward(accuracy, totalQuestions)`
(RewardService.js, lines 34-37): `Math.floor(total*2*accuracy*100)/100`. -/
def calculateBaseReward (accuracy : ℚ) (totalQuestions : Nat) : ℚ :=
  let baseAmount : ℚ := (totalQuestions : ℚ) * 2
  ((Int.floor (baseAmount * accuracy * 100) : ℤ) : ℚ) / 100

/-- `RewardService.calculateTimeBonus(timeSpent, totalQuestions)`
(RewardService.js, lines 39-48): half a dollar per minute saved against an
expected 30 seconds per question. -/
def calculateTimeBonus (timeSpent : ℚ) (totalQuestions : Nat) : ℚ :=
  let expectedTime : ℚ := (totalQuestions : ℚ) * 30
  if timeSpent < expectedTime then ((expectedTime - timeSpent) / 60) * (1 / 2) else 0

/-- The `GameSession.countDocuments` query of `calculateStreakBonus`
(RewardService.js, lines 50-60): completed sessions of the user with
`totalScore >= 0.7` created within the trailing 24 hours. -/
def countRecentWins (store : JSStore) (userId : String) (now : Nat) : Nat :=
  (store.gameSessions.filter (fun g =>
    g.userId == userId && g.status == "completed"
      && decide ((7 : ℚ) / 10 ≤ g.totalScore)
      && decide (now - 24 * 60 * 60 * 1000 ≤ g.createdAt))).length

/-- `RewardService.calculateStreakBonus(userId)`: two dollars per recent win. -/
def calculateStreakBonus (store : JSStore) (userId : String) (now : Nat) : ℚ :=
  (countRecentWins store userId now : ℚ) * 2

/-- `RewardService.calculateReward(gameSession)` (RewardService.js, lines
3-32): base + time bonus + streak bonus, then `distributeReward` is awaited;
its failure propagates (with the mongoose transaction rolled back). -/
def calculateReward (store : JSStore) (now : Nat) (gs : GameSession) :
    JSStore × Except String ℚ :=
  let correctAnswers := (gs.questions.filter (fun q => q.isCorrect)).length
  let totalQuestions := gs.questions.length
  let accuracy : ℚ := (correctAnswers : ℚ) / (totalQuestions : ℚ)
  let baseReward := calculateBaseReward accuracy totalQuestions
  let timeBonus := calculateTimeBonus gs.timeSpent totalQuestions
  let streakBonus := calculateStreakBonus store gs.userId now
  let totalReward := baseReward + timeBonus + streakBonus
  match distributeReward store gs.userId totalReward gs.id with
  | (s, Except.ok _) => (s, Except.ok totalReward)
  | (s, Except.error e) => (s, Except.error e)

/-- Wallet balance of a user as read from a JS store (0 when absent). -/
def jsWalletOf (store : JSStore) (userId : String) : ℚ :=
  ((store.users.find? (fun u => u.id == userId)).map (fun u => u.walletBalance)).getD 0

/-- A question item of the AI question cache (aiQuestion.model, sub-schema
`questionSchema`).  `timeLimit` is optional with schema default 30. -/
structure AIQuestionItem where
  question : String
  options : List String
  correctAnswer : String
  explanation : Option String
  topic : Option String
  timeLimit : Option Nat
deriving DecidableEq, Repr

/-- Generation metrics handed to `AIQuestionService.cacheQuestions`. -/
structure AIMetrics where
  model : String
  tokensUsed : Nat
  cost : ℚ
  responseTime : Nat
deriving DecidableEq, Repr

/-- A durable cache entry (aiQuestion.model, main schema).  The untyped
`metadata` mixed field is not modelled. -/
structure AIQuestionEntry where
  category : String
  difficulty : String
  questions : List AIQuestionItem
  aiModel : String
  aiPrompt : String
  tokensUsed : Nat
  cost : ℚ
  cacheKey : String
  isActive : Bool
  usageCount : Nat
  lastUsed : Nat
  expiresAt : Nat
  createdAt : Nat
deriving DecidableEq, Repr

/-- The durable cache collection. -/
abbrev CacheStore := List AIQuestionEntry

/-- Mongoose setters of `questionSchema`: `trim` on `question` and `topic`,
`uppercase`+`trim` on `correctAnswer`, default 30 for `timeLimit`.  Setters
run before validation, so validators see these values. -/
def normalizeItem (q : AIQuestionItem) : AIQuestionItem :=
  { question := strTrim q.question, options := q.options,
    correctAnswer := strUpper (strTrim q.correctAnswer),
    explanation := q.explanation, topic := q.topic.map strTrim,
    timeLimit := some (q.timeLimit.getD 30) }

/-- Validators of `questionSchema` (aiQuestion.model, lines 33-74):
question length in [10,500], exactly 4 non-empty options, `correctAnswer` in
the A-D enum, explanation at most 1000 characters, time limit in [10,120]. -/
def validQuestionItem (q : AIQuestionItem) : Bool :=
  decide (10 ≤ q.question.length) && decide (q.question.length ≤ 500)
    && (q.options.length == 4) && q.options.all (fun o => decide (0 < o.length))
    && (["A", "B", "C", "D"] : List String).contains q.correctAnswer
    && (match q.explanation with
        | none => true
        | some e => decide (e.length ≤ 1000))
    && (match q.timeLimit with
        | none => true
        | some n => decide (10 ≤ n) && decide (n ≤ 120))

/-- The allowed categories of `aiQuestionSchema.category`. -/
def aiCategories : List String :=
  ["science", "technology", "history", "geography", "sports", "entertainment",
   "politics", "art", "literature", "mathematics", "biology", "physics",
   "chemistry", "general-knowledge", "programming"]

/-- Entry-level validators of `aiQuestionSchema` (aiQuestion.model): category
and difficulty enums, between 1 and 20 questions, every question valid, model
enum, non-empty prompt of at most 5000 characters, a cache key (always set by
the pre-save hook). -/
def validAIQuestionEntry (e : AIQuestionEntry) : Bool :=
  aiCategories.contains e.category
    && (["easy", "medium", "hard"] : List String).contains e.difficulty
    && decide (0 < e.questions.length) && decide (e.questions.length ≤ 20)
    && e.questions.all validQuestionItem
    && (["gpt-3.5-turbo", "gpt-4", "gpt-4-turbo"] : List String).contains e.aiModel
    && !(e.aiPrompt == "") && decide (e.aiPrompt.length ≤ 5000)
    && !(e.cacheKey == "")

/-- `aiModel.includes('gpt-4')` of the cost pre-save hook: substring test on
the character list. -/
def charsStartWith : List Char → List Char → Bool
  | [], _ => true
  | _ :: _, [] => false
  | a :: as, b :: bs => a == b && charsStartWith as bs

/-- Substring occurrence test used to model `String.prototype.includes`. -/
def charsOccurIn (needle : List Char) : List Char → Bool
  | [] => needle.isEmpty
  | c :: rest => charsStartWith needle (c :: rest) || charsOccurIn needle rest

/-- `model.includes('gpt-4')`. -/
def includesGpt4 (model : String) : Bool :=
  charsOccurIn "gpt-4".data model.data

/-- Cache key derivation of the first pre-save hook (aiQuestion.model, lines
224-239): `ai_questions:{category}:{difficulty}:{hourBucket}` with
`hourBucket = Math.floor(Date.now() / (1000*60*60))`. -/
def deriveCacheKey (category difficulty : String) (nowMs : Nat) : String :=
  "ai_questions:" ++ category ++ ":" ++ difficulty ++ ":"
    ++ toString (nowMs / 3600000)

/-- Building the cache entry as `AIQuestionService.cacheQuestions` does
(aiQuestion.service.ts, lines 8-44) followed by the document pre-save hooks:
lowercased category and difficulty, cache key from the hour bucket, expiry 24
hours after creation, cost recomputed from tokens used (the hook overwrites
the cost passed in the metrics, since `tokensUsed` is modified on a new
document). -/
def mkAIQuestionEntry (questions : List AIQuestionItem) (category difficulty : String)
    (metrics : AIMetrics) (aiPrompt : String) (nowMs : Nat) : AIQuestionEntry :=
  { category := strLower category, difficulty := strLower difficulty,
    questions := questions.map normalizeItem,
    aiModel := metrics.model, aiPrompt := aiPrompt,
    tokensUsed := metrics.tokensUsed,
    cost := (metrics.tokensUsed : ℚ)
      * (if includesGpt4 metrics.model then 3 / 100000 else 2 / 1000000),
    cacheKey := deriveCacheKey (strLower category) (strLower difficulty) nowMs,
    isActive := true, usageCount := 0, lastUsed := nowMs,
    expiresAt := nowMs + 24 * 3600 * 1000, createdAt := nowMs }

/-- `AIQuestionService.cacheQuestions`: build the entry, run the schema
validation and the unique index on `cacheKey`; any failure is caught and
rethrown as a generation-side caching error, and nothing is persisted. -/
def cacheQuestions (store : CacheStore) (questions : List AIQuestionItem)
    (category difficulty : String) (metrics : AIMetrics) (aiPrompt : String)
    (nowMs : Nat) : CacheStore × Except String String :=
  let e := mkAIQuestionEntry questions category difficulty metrics aiPrompt nowMs
  if !(validAIQuestionEntry e) then (store, Except.error "Failed to cache questions")
  else if store.any (fun x => x.cacheKey == e.cacheKey) then
    (store, Except.error "Failed to cache questions")
  else (store ++ [e], Except.ok e.cacheKey)

/-- Pick the entry with the greatest `createdAt` (the
`.sort({ createdAt: -1 })` + `findOne` of `getCachedQuestions`). -/
def pickLatest (acc : Option AIQuestionEntry) (e : AIQuestionEntry) :
    Option AIQuestionEntry :=
  match acc with
  | none => some e
  | some b => if b.createdAt < e.createdAt then some e else some b

/-- `AIQuestionService.getCachedQuestions(category, difficulty)`
(aiQuestion.service.ts, lines 46-83): most recent entry matching the
lowercased pair with `isActive` (no expiry filter in this service); on a hit
the usage counter is incremented and `lastUsed` stamped. -/
def getCachedQuestions (store : CacheStore) (category difficulty : String)
    (nowMs : Nat) : CacheStore × Option (List AIQuestionItem) :=
  let cached := (store.filter (fun e =>
    e.category == strLower category && e.difficulty == strLower difficulty
      && e.isActive)).foldl pickLatest none
  match cached with
  | none => (store, none)
  | some e =>
    (store.map (fun x =>
      if x.cacheKey == e.cacheKey then
        { x with usageCount := x.usageCount + 1, lastUsed := nowMs } else x),
     some e.questions)

/-- `AIQuestionService.cleanupExpiredCache` (aiQuestion.service.ts, lines
123-142): `updateMany` flipping `isActive` to false on active entries whose
`expiresAt` has passed; returns the modified count. -/
def cleanupExpiredCache (nowMs : Nat) (store : CacheStore) : CacheStore × Nat :=
  (store.map (fun e =>
      if e.isActive && decide (e.expiresAt ≤ nowMs) then { e with isActive := false } else e),
   (store.filter (fun e => e.isActive && decide (e.expiresAt ≤ nowMs))).length)

/-- `AIQuestionService.invalidateCache(category, difficulty?)`
(aiQuestion.service.ts, lines 178-205): `updateMany` flipping `isActive` to
false on matching active entries. -/
def invalidateCache (store : CacheStore) (category : String)
    (difficulty : Option String) : CacheStore × Nat :=
  let matching := fun (e : AIQuestionEntry) =>
    e.category == strLower category && e.isActive
      && (match difficulty with
          | none => true
          | some d => e.difficulty == strLower d)
  (store.map (fun e => if matching e then { e with isActive := false } else e),
   (store.filter matching).length)

/-- The document deletion declared by the schema TTL index
`expiresAt: { ..., expires: 0 }` (aiQuestion.model, lines 150-155): the
MongoDB TTL monitor removes every document whose `expiresAt` has passed.
This is store behaviour configured by the schema itself, not an operation of
the service layer. -/
def ttlSweep (nowMs : Nat) (store : CacheStore) : CacheStore :=
  store.filter (fun e => decide (nowMs < e.expiresAt))

/-- Canonicalize the `isActive` flag, for stating that an operation changes
nothing but that flag. -/
def forgetActive (e : AIQuestionEntry) : AIQuestionEntry :=
  { e with isActive := false }

/-- Example question for concrete runs: correct option A. -/
def exQuestion : Question :=
  { question := "Q1", options := ["w", "x", "y", "z"], correctAnswer := "A",
    explanation := some "E1" }

/-- Example active session with its single question answered correctly. -/
def exActiveSession : QuizSession :=
  { id := "S1", user := "U1", category := "science", difficulty := "easy",
    questions := [exQuestion], userAnswers := [some "A"], score := 0,
    totalQuestions := 1, status := "active", paymentReference := "PAY1",
    rewardEarned := 0, timeStarted := 0, timeCompleted := none }

/-- Example store: one user with an empty wallet and one active session. -/
def exStoreA : TSStore :=
  { users := [{ id := "U1", walletBalance := 0 }],
    sessions := [exActiveSession], transactions := [] }

/-- Example already-completed (terminal) session. -/
def exTerminalSession : QuizSession :=
  { exActiveSession with
      status := "completed"
      score := 1
      rewardEarned := 1 / 10
      timeCompleted := some 5 }

/-- Example store whose only session is terminal. -/
def exTerminalStore : TSStore :=
  { users := [{ id := "U1", walletBalance := 0 }],
    sessions := [exTerminalSession], transactions := [] }

/-- Example abandoned session and store. -/
def exAbandonedStore : TSStore :=
  { users := [{ id := "U1", walletBalance := 0 }],
    sessions := [{ exActiveSession with status := "abandoned" }], transactions := [] }

/-- Example JS game question answered correctly. -/
def exGameQuestionRight : JSGameQuestion :=
  { question := "q", options := ["a", "b", "c", "d"], correctAnswer := "A",
    userAnswer := some "A", isCorrect := true, points := 1 }

/-- Example JS game question answered wrongly. -/
def exGameQuestionWrong : JSGameQuestion :=
  { question := "q", options := ["a", "b", "c", "d"], correctAnswer := "A",
    userAnswer := some "B", isCorrect := false, points := 1 }

/-- The session of the reward scenario: 10 questions, 7 correct, finished in
150 seconds. -/
def exGameSession : GameSession :=
  { id := "G1", userId := "U1",
    questions := List.replicate 7 exGameQuestionRight
      ++ List.replicate 3 exGameQuestionWrong,
    totalScore := 7, timeSpent := 150, status := "active", createdAt := 0 }

/-- JS store for the reward scenario: the user has an empty wallet and no
prior completed sessions in the trailing 24 hours. -/
def exJSStore : JSStore :=
  { users := [{ id := "U1", walletBalance := 0, totalEarnings := 0, gamesPlayed := 0 }],
    transactions := [], gameSessions := [exGameSession] }

/-- JS store that already holds a reward transaction for session G1. -/
def exJSStoreDup : JSStore :=
  { users := [{ id := "U1", walletBalance := 0, totalEarnings := 0, gamesPlayed := 0 }],
    transactions := [jsRewardTransaction "U1" 5 "G1"], gameSessions := [] }

/-- Example valid AI question item. -/
def exAIItem : AIQuestionItem :=
  { question := "What is the chemical symbol of water?",
    options := ["H2O", "CO2", "NaCl", "O2"], correctAnswer := "A",
    explanation := none, topic := none, timeLimit := none }

/-- Example generation metrics. -/
def exMetrics : AIMetrics :=
  { model := "gpt-3.5-turbo", tokensUsed := 100, cost := 1 / 10, responseTime := 500 }

/-- Example expired cache entry (expiry stamp 100). -/
def exExpiredEntry : AIQuestionEntry :=
  { category := "science", difficulty := "easy", questions := [exAIItem],
    aiModel := "gpt-3.5-turbo", aiPrompt := "p", tokensUsed := 10, cost := 1 / 50000,
    cacheKey := "ai_questions:science:easy:0", isActive := true, usageCount := 3,
    lastUsed := 50, expiresAt := 100, createdAt := 10 }



/-- Session fixture for the case-sensitivity claim: correct label B, no
answers yet. -/
def exCaseSession : QuizSession :=
  { exActiveSession with
      questions := [{ question := "Q1", options := ["w", "x", "y", "z"],
                      correctAnswer := "B", explanation := none }]
      userAnswers := [] }

/-- Store fixture for the case-sensitivity claim. -/
def exCaseStore : TSStore :=
  { users := [{ id := "U1", walletBalance := 0 }],
    sessions := [exCaseSession], transactions := [] }

/-! ## Helper lemmas -/

/-- Updating every record whose key matches commutes with `find?` on that key,
provided the update preserves the key. -/
theorem find?_map_update {α : Type} (key : α → String) (upd : α → α)
    (hk : ∀ a, key (upd a) = key a) (l : List α) (k : String) :
    (l.map (fun a => if key a == k then upd a else a)).find? (fun a => key a == k)
      = (l.find? (fun a => key a == k)).map upd := by
  induction l with
  | nil => rfl
  | cons a t ih =>
    by_cases h : (key a == k) = true
    · simp [List.find?, h, hk]
    · have h2 : (key a == k) = false := by
        revert h
        cases key a == k <;> simp
      simp only [List.map_cons]
      rw [if_neg (by simp [h2])]
      simp only [List.find?, h2]
      exact ih

/-- The reward transaction of the TypeScript `completeQuiz` never passes the
schema validation: its `paymentMethod` is `system`, which is outside the
`flutterwave|stripe|momo` enum of `transactionSchema`. -/
theorem validTS_reward_false (uid : String) (r : ℚ) (cat sid : String) :
    validTSTransaction (tsRewardTransaction uid r cat sid) = false := by
  simp [validTSTransaction, tsRewardTransaction]

/-- Behaviour of `completeQuiz` whenever the session lookup succeeds: the
wallet increment and the session update are persisted, then the reward
transaction insert fails validation and the error is surfaced. -/
theorem completeQuiz_found (store : TSStore) (sid uid : String) (now : Nat)
    (s : QuizSession) (h : findSessionByIdAndUser store sid uid = some s) :
    completeQuiz store sid uid now =
      (saveSession (incWalletBalance store uid ((computeScore s : ℚ) * (1 / 10)))
        { s with
            score := computeScore s
            status := "completed"
            timeCompleted := some now
            rewardEarned := (computeScore s : ℚ) * (1 / 10) },
       Except.error "ValidationError") := by
  unfold completeQuiz
  rw [h]
  simp [saveTSTransaction, validTS_reward_false]

/-- `setIdx` really stores the value at the written index. -/
theorem setIdx_getD (l : List (Option String)) (i : Nat) (v : String) :
    (setIdx l i v).getD i none = some v := by
  induction i generalizing l with
  | zero => cases l <;> simp [setIdx]
  | succ n ih => cases l <;> simpa [setIdx, List.getD] using ih _

/-- Mapping a function of the payload over an enumeration. -/
theorem enum_map_payload {α β : Type} (l : List α) (g : α → β) :
    l.enum.map (fun p => g p.2) = l.map g := by
  rw [show (fun p : Nat × α => g p.2) = g ∘ Prod.snd from rfl, ← List.map_map,
    List.enum_map_snd]


/-! ## Claim C6 -/

/-- C6: `startQuiz` succeeds only when a Transaction with the given
`paymentReference`, the given `userId` and status `completed` exists; when no
such transaction exists it fails with the payment-not-verified error and
creates no session (the store is unchanged). -/
theorem startQuiz_requires_verified_payment (store : TSStore)
    (userId category paymentReference : String) (generated : List Question)
    (newId : String) (now : Nat) :
    (store.transactions.find? (fun t =>
        t.paymentReference == paymentReference && t.user == userId
          && t.status == "completed") = none →
      startQuiz store userId category paymentReference generated newId now
        = (store, Except.error "Payment not verified"))
  ∧ (∀ s, (startQuiz store userId category paymentReference generated newId now).2
        = Except.ok s →
      ∃ t ∈ store.transactions,
        t.paymentReference = paymentReference ∧ t.user = userId
          ∧ t.status = "completed") := by
  constructor
  · intro h
    unfold startQuiz
    rw [h]
  · intro s hok
    unfold startQuiz at hok
    cases hfind : store.transactions.find? (fun t =>
        t.paymentReference == paymentReference && t.user == userId
          && t.status == "completed") with
    | none => rw [hfind] at hok; simp at hok
    | some t =>
      have hmem := List.mem_of_find?_eq_some hfind
      have hp := List.find?_some hfind
      simp only [Bool.and_eq_true, beq_iff_eq] at hp
      exact ⟨t, hmem, hp.1.1, hp.1.2, hp.2⟩

/-- C6 witness: on a store with no transactions, starting a quiz is rejected
with no session created. -/
theorem startQuiz_requires_verified_payment_witness :
    startQuiz { users := [], sessions := [], transactions := [] }
        "U1" "science" "PAY1" [exQuestion] "S9" 0
      = ({ users := [], sessions := [], transactions := [] },
         Except.error "Payment not verified") :=
  (startQuiz_requires_verified_payment
    { users := [], sessions := [], transactions := [] }
    "U1" "science" "PAY1" [exQuestion] "S9" 0).1 rfl

/-! ## Claim C10 -/

/-- C10: the submitted answer is stored verbatim and compared with strict
string equality, while input validation uppercases only for its membership
check: an answer differing from the correct label only in case passes
validation, is recorded verbatim, and is scored as incorrect both by the
per-submission check and by the per-index test used in the completion
re-scoring. -/
theorem submitAnswer_case_sensitive (store : TSStore) (sessionId answer : String)
    (i : Nat) (s : QuizSession) (q : Question)
    (hfind : findSessionById store sessionId = some s)
    (hactive : s.status = "active")
    (hq : s.questions.get? i = some q)
    (hmem : q.correctAnswer ∈ (["A", "B", "C", "D"] : List String))
    (hne : answer ≠ q.correctAnswer)
    (hup : strUpper answer = q.correctAnswer)
    (hsid : sessionId ≠ "") :
    validateAnswerInput sessionId (i : Int) answer = none
  ∧ (submitAnswer store sessionId i answer).2
      = Except.ok { isCorrect := false, correctAnswer := q.correctAnswer,
                    explanation := q.explanation }
  ∧ (submitAnswer store sessionId i answer).1
      = saveSession store { s with userAnswers := setIdx s.userAnswers i answer }
  ∧ (setIdx s.userAnswers i answer).getD i none = some answer
  ∧ ((setIdx s.userAnswers i answer).getD i none == some q.correctAnswer) = false := by
  have hbne : (answer == q.correctAnswer) = false := beq_eq_false_iff_ne.mpr hne
  have hsb : (sessionId == "") = false := beq_eq_false_iff_ne.mpr hsid
  have hcontains : (["A", "B", "C", "D"] : List String).contains q.correctAnswer = true := by
    exact List.elem_eq_true_of_mem hmem
  have hansne : (answer == "") = false := by
    apply beq_eq_false_iff_ne.mpr
    intro he
    rw [he] at hup
    have : q.correctAnswer = "" := hup.symm
    rw [this] at hmem
    exact absurd hmem (by decide)
  refine ⟨?_, ?_, ?_, setIdx_getD _ _ _, ?_⟩
  · unfold validateAnswerInput
    rw [if_neg (by simp [hsb])]
    rw [if_neg (not_lt.mpr (Int.natCast_nonneg i))]
    rw [if_neg (by simp only [hansne, hup, hcontains]; decide)]
  · unfold submitAnswer
    rw [hfind]
    simp only [hactive, hq]
    simp [hbne]
  · unfold submitAnswer
    rw [hfind]
    simp only [hactive, hq]
    simp
  · rw [setIdx_getD]
    simpa using hne

/-- C10 witness: answer `b` against correct label `B` passes validation, is
stored verbatim and is scored incorrect. -/
theorem submitAnswer_case_sensitive_witness :
    validateAnswerInput "S1" ((0 : Nat) : Int) "b" = none
  ∧ (submitAnswer exCaseStore "S1" 0 "b").2
      = Except.ok { isCorrect := false, correctAnswer := "B",
                    explanation := none }
  ∧ (submitAnswer exCaseStore "S1" 0 "b").1
      = saveSession exCaseStore
          { exCaseSession with userAnswers := setIdx exCaseSession.userAnswers 0 "b" }
  ∧ (setIdx exCaseSession.userAnswers 0 "b").getD 0 none = some "b"
  ∧ ((setIdx exCaseSession.userAnswers 0 "b").getD 0 none == some "B") = false := by
  have h := submitAnswer_case_sensitive exCaseStore "S1" "b" 0 exCaseSession
    { question := "Q1", options := ["w", "x", "y", "z"], correctAnswer := "B",
      explanation := none }
    (by decide) rfl (by decide) (by decide) (by decide) (by decide) (by decide)
  exact h


/-! ## Claims C1, C2, C3 -/

/-- Case analysis of `distributeReward`: validation failure, duplicate
reference, or full success. -/
theorem distributeReward_cases (s : JSStore) (uid : String) (amt : ℚ)
    (gid : String) :
    distributeReward s uid amt gid = (s, Except.error "ValidationError")
  ∨ distributeReward s uid amt gid = (s, Except.error "E11000 duplicate key error")
  ∨ distributeReward s uid amt gid = (jsAfterReward s uid amt gid, Except.ok ()) := by
  simp only [distributeReward]
  split_ifs <;> simp

/-- C1 counterexample: on a store with one user (empty wallet) and one active
session, `completeQuiz` fails at the reward-transaction insert, yet the
wallet increment and the session status transition persist and no transaction
exists — the three settlement steps are not an all-or-nothing unit. -/
theorem completeQuiz_not_atomic_counterexample :
    (completeQuiz exStoreA "S1" "U1" 9).2 = Except.error "ValidationError"
  ∧ (completeQuiz exStoreA "S1" "U1" 9).1.users = [{ id := "U1", walletBalance := 1 / 10 }]
  ∧ (completeQuiz exStoreA "S1" "U1" 9).1.transactions = []
  ∧ (completeQuiz exStoreA "S1" "U1" 9).1.sessions.map (fun s => s.status) = ["completed"]
  ∧ exStoreA.users = [{ id := "U1", walletBalance := 0 }] := by decide

/-- C1 (amended): `RewardService.distributeReward` applies the wallet update
and the reward-transaction insert as one all-or-nothing unit — on any error
the store is unchanged, and on success both effects are applied — but it
never touches the session records, so the status transition is outside the
unit; `QuizService.completeQuiz` is not atomic: whenever the session lookup
succeeds, the call errors at the transaction insert while the wallet
increment (and the session update) are already persisted. -/
theorem settlement_atomicity (s : JSStore) (uid gid : String) (amt : ℚ) :
    (∀ msg, (distributeReward s uid amt gid).2 = Except.error msg →
       (distributeReward s uid amt gid).1 = s)
  ∧ (distributeReward s uid amt gid).1.gameSessions = s.gameSessions
  ∧ ((distributeReward s uid amt gid).2 = Except.ok () →
       (distributeReward s uid amt gid).1 = jsAfterReward s uid amt gid)
  ∧ (∀ (store : TSStore) (sid uid2 : String) (now : Nat) (sess : QuizSession),
       findSessionByIdAndUser store sid uid2 = some sess →
         (completeQuiz store sid uid2 now).2 = Except.error "ValidationError"
       ∧ (completeQuiz store sid uid2 now).1.users
           = (incWalletBalance store uid2 ((computeScore sess : ℚ) * (1 / 10))).users) := by
  have hts : ∀ (store : TSStore) (sid uid2 : String) (now : Nat) (sess : QuizSession),
      findSessionByIdAndUser store sid uid2 = some sess →
        (completeQuiz store sid uid2 now).2 = Except.error "ValidationError"
      ∧ (completeQuiz store sid uid2 now).1.users
          = (incWalletBalance store uid2 ((computeScore sess : ℚ) * (1 / 10))).users := by
    intro store sid uid2 now sess hf
    rw [completeQuiz_found store sid uid2 now sess hf]
    exact ⟨rfl, rfl⟩
  rcases distributeReward_cases s uid amt gid with h | h | h <;> rw [h]
  · exact ⟨fun _ _ => rfl, rfl, fun hok => absurd hok (by simp), hts⟩
  · exact ⟨fun _ _ => rfl, rfl, fun hok => absurd hok (by simp), hts⟩
  · exact ⟨fun msg herr => absurd herr (by simp), rfl, fun _ => rfl, hts⟩

/-- C1 witness: a duplicate-reference settlement leaves the JS store
unchanged, and on the concrete TS store the failed completion still
incremented the wallet. -/
theorem settlement_atomicity_witness :
    (distributeReward exJSStoreDup "U1" 5 "G1").1 = exJSStoreDup
  ∧ (completeQuiz exStoreA "S1" "U1" 9).1.users
      = (incWalletBalance exStoreA "U1" ((computeScore exActiveSession : ℚ) * (1 / 10))).users := by
  have h := settlement_atomicity exJSStoreDup "U1" "G1" 5
  exact ⟨h.1 "E11000 duplicate key error" (by decide),
         (h.2.2.2 exStoreA "S1" "U1" 9 exActiveSession (by decide)).2⟩

/-- C2 counterexample: invoking `completeQuiz` twice on the same session
leaves the wallet incremented twice (0.20, not 0.10), and zero — not one —
reward transactions with the session-derived reference exist afterwards. -/
theorem settlement_double_pay_counterexample :
    (completeQuiz (completeQuiz exStoreA "S1" "U1" 9).1 "S1" "U1" 10).1.users
      = [{ id := "U1", walletBalance := 1 / 5 }]
  ∧ ((completeQuiz (completeQuiz exStoreA "S1" "U1" 9).1 "S1" "U1" 10).1.transactions.filter
      (fun t => t.paymentReference == "reward_S1")).length = 0 := by decide

/-- C2 (amended): settlement through `RewardService.distributeReward` is
idempotent-by-rejection: starting from a store holding the user and no reward
transaction for the session, the first call succeeds, the second is rejected
on the duplicate `REWARD_` reference, the wallet balance has changed exactly
once in total, and exactly one reward transaction with the derived reference
exists; settlement through `QuizService.completeQuiz` is not idempotent (see
the counterexample: every invocation increments the wallet again). -/
theorem distributeReward_idempotent (s0 : JSStore) (uid gid : String) (amt : ℚ)
    (u : JSUser) (huid : uid ≠ "")
    (huser : s0.users.find? (fun v => v.id == uid) = some u)
    (hnodup : s0.transactions.filter (fun t => t.reference == "REWARD_" ++ gid) = []) :
    (distributeReward s0 uid amt gid).2 = Except.ok ()
  ∧ (distributeReward (distributeReward s0 uid amt gid).1 uid amt gid).2
      = Except.error "E11000 duplicate key error"
  ∧ jsWalletOf (distributeReward (distributeReward s0 uid amt gid).1 uid amt gid).1 uid
      = jsWalletOf s0 uid + amt
  ∧ ((distributeReward (distributeReward s0 uid amt gid).1 uid amt gid).1.transactions.filter
      (fun t => t.reference == "REWARD_" ++ gid)).length = 1 := by
  have hu : (uid == "") = false := beq_eq_false_iff_ne.mpr huid
  have hval : validJSTransaction (jsRewardTransaction uid amt gid) = true := by
    simp only [validJSTransaction, jsRewardTransaction, hu]
    decide
  have hany0 : s0.transactions.any (fun t => t.reference == "REWARD_" ++ gid) = false := by
    rw [Bool.eq_false_iff]
    intro hany
    rcases List.any_eq_true.mp hany with ⟨t, ht, hp⟩
    exact absurd hp (List.filter_eq_nil_iff.mp hnodup t ht)
  have href : (jsRewardTransaction uid amt gid).reference = "REWARD_" ++ gid := rfl
  have h1 : distributeReward s0 uid amt gid
      = (jsAfterReward s0 uid amt gid, Except.ok ()) := by
    simp [distributeReward, hval, href, hany0]
  have hany1 : (jsAfterReward s0 uid amt gid).transactions.any
      (fun t => t.reference == "REWARD_" ++ gid) = true := by
    simp [jsAfterReward, jsRewardTransaction]
  have h2 : distributeReward (jsAfterReward s0 uid amt gid) uid amt gid
      = (jsAfterReward s0 uid amt gid, Except.error "E11000 duplicate key error") := by
    simp [distributeReward, hval, href, hany1]
  refine ⟨by rw [h1], by rw [h1, h2], ?_, ?_⟩
  · rw [h1, h2]
    have hfind2 := find?_map_update JSUser.id (applyRewardUpdate amt)
      (fun a => rfl) s0.users uid
    simp only [jsWalletOf, jsAfterReward]
    rw [hfind2, huser]
    simp [applyRewardUpdate]
  · rw [h1, h2]
    simp only [jsAfterReward]
    rw [List.filter_append, hnodup]
    simp [jsRewardTransaction]

/-- C2 witness: concrete double settlement of session G1 for user U1. -/
theorem distributeReward_idempotent_witness :
    (distributeReward exJSStore "U1" 5 "G1").2 = Except.ok ()
  ∧ (distributeReward (distributeReward exJSStore "U1" 5 "G1").1 "U1" 5 "G1").2
      = Except.error "E11000 duplicate key error"
  ∧ jsWalletOf (distributeReward (distributeReward exJSStore "U1" 5 "G1").1 "U1" 5 "G1").1 "U1"
      = jsWalletOf exJSStore "U1" + 5
  ∧ ((distributeReward (distributeReward exJSStore "U1" 5 "G1").1 "U1" 5 "G1").1.transactions.filter
      (fun t => t.reference == "REWARD_" ++ "G1")).length = 1 :=
  distributeReward_idempotent exJSStore "U1" "G1" 5
    { id := "U1", walletBalance := 0, totalEarnings := 0, gamesPlayed := 0 }
    (by decide) (by decide) (by decide)

/-- C3 counterexample: on a store whose only session is already completed,
`completeQuiz` still settles: the wallet moves from 0 to 0.10 and the
terminal session is mutated (its completion stamp is rewritten). -/
theorem terminal_not_immutable_counterexample :
    exTerminalStore.sessions.map (fun s => s.status) = ["completed"]
  ∧ (completeQuiz exTerminalStore "S1" "U1" 9).1.users
      = [{ id := "U1", walletBalance := 1 / 10 }]
  ∧ exTerminalStore.users = [{ id := "U1", walletBalance := 0 }]
  ∧ (completeQuiz exTerminalStore "S1" "U1" 9).1.sessions.map (fun s => s.timeCompleted)
      = [some 9] := by decide

/-- C3 (amended): `submitAnswer` on a completed or abandoned session fails
with the session-not-active error and leaves the store unchanged, but
`completeQuiz` has no terminal-state guard: on any found session — whatever
its status — it re-scores, rewrites the session fields and re-applies the
wallet increment. -/
theorem terminal_session_guards (store : TSStore) (sid uid : String) (i : Nat)
    (ans : String) (now : Nat) (s s2 : QuizSession)
    (hfind : findSessionById store sid = some s)
    (hterm : s.status = "completed" ∨ s.status = "abandoned")
    (hfind2 : findSessionByIdAndUser store sid uid = some s2) :
    submitAnswer store sid i ans = (store, Except.error "Quiz session is not active")
  ∧ (completeQuiz store sid uid now).1.users
      = (incWalletBalance store uid ((computeScore s2 : ℚ) * (1 / 10))).users
  ∧ (completeQuiz store sid uid now).1.sessions
      = (saveSession store { s2 with
            score := computeScore s2
            status := "completed"
            timeCompleted := some now
            rewardEarned := (computeScore s2 : ℚ) * (1 / 10) }).sessions := by
  refine ⟨?_, ?_, ?_⟩
  · unfold submitAnswer
    rw [hfind]
    rcases hterm with h | h <;> simp [h]
  · rw [completeQuiz_found store sid uid now s2 hfind2]
    rfl
  · rw [completeQuiz_found store sid uid now s2 hfind2]
    rfl

/-- C3 witness: the guards evaluated on the concrete terminal store. -/
theorem terminal_session_guards_witness :
    submitAnswer exTerminalStore "S1" 0 "A"
      = (exTerminalStore, Except.error "Quiz session is not active")
  ∧ (completeQuiz exTerminalStore "S1" "U1" 9).1.users
      = (incWalletBalance exTerminalStore "U1"
          ((computeScore exTerminalSession : ℚ) * (1 / 10))).users :=
  have h := terminal_session_guards exTerminalStore "S1" "U1" 0 "A" 9
    exTerminalSession exTerminalSession (by decide) (Or.inl rfl) (by decide)
  ⟨h.1, h.2.1⟩


/-! ## Claim C4 -/

/-- C4 counterexample: while the session is still active, the response
returned to the caller by `submitAnswer` exposes the correct answer and the
explanation of the submitted question. -/
theorem active_session_reveal_counterexample :
    exActiveSession.status = "active"
  ∧ (submitAnswer exStoreA "S1" 0 "B").2
      = Except.ok { isCorrect := false, correctAnswer := "A",
                    explanation := some "E1" } := by decide

/-- C4 (amended): the controller read view (`sanitizeQuizSession`) exposes no
`correctAnswer`, `explanation` or `isCorrect` field for any question of an
active session, and exposes all three for every question of a completed
session; the `submitAnswer` response, however, returns the correct answer and
explanation of the submitted question even while the session is active. -/
theorem answer_reveal_policy :
    (∀ s : QuizSession, s.status = "active" →
       ∀ sq ∈ (sanitizeQuizSession s).questions,
         sq.correctAnswer = none ∧ sq.explanation = none ∧ sq.isCorrect = none)
  ∧ (∀ s : QuizSession, s.status = "completed" →
       (sanitizeQuizSession s).questions.map (fun sq => sq.correctAnswer)
         = s.questions.map (fun q => some q.correctAnswer)
     ∧ (sanitizeQuizSession s).questions.map (fun sq => sq.explanation)
         = s.questions.map (fun q => q.explanation)
     ∧ (sanitizeQuizSession s).questions.map (fun sq => sq.isCorrect)
         = s.questions.enum.map (fun p =>
             some (s.userAnswers.getD p.1 none == some p.2.correctAnswer)))
  ∧ (∀ (store : TSStore) (sid : String) (i : Nat) (ans : String)
       (s : QuizSession) (q : Question),
       findSessionById store sid = some s → s.status = "active" →
       s.questions.get? i = some q →
       (submitAnswer store sid i ans).2
         = Except.ok { isCorrect := ans == q.correctAnswer,
                       correctAnswer := q.correctAnswer,
                       explanation := q.explanation }) := by
  refine ⟨?_, ?_, ?_⟩
  · intro s h sq hsq
    have hb : (s.status == "completed") = false := by rw [h]; decide
    simp only [sanitizeQuizSession, hb, if_false, Bool.false_eq_true] at hsq
    rcases List.mem_map.mp hsq with ⟨p, _, rfl⟩
    exact ⟨rfl, rfl, rfl⟩
  · intro s h
    have hb : (s.status == "completed") = true := by rw [h]; decide
    refine ⟨?_, ?_, ?_⟩
    · simp only [sanitizeQuizSession, hb, if_true, List.map_map]
      exact enum_map_payload s.questions (fun q => some q.correctAnswer)
    · simp only [sanitizeQuizSession, hb, if_true, List.map_map]
      exact enum_map_payload s.questions (fun q => q.explanation)
    · simp only [sanitizeQuizSession, hb, if_true, List.map_map]
      rfl
  · intro store sid i ans s q hfind hact hq
    unfold submitAnswer
    rw [hfind]
    simp only [hact, hq]
    simp

/-- C4 witness: the read-view guarantee at a completed session and the
submit-time exposure at the concrete active store. -/
theorem answer_reveal_policy_witness :
    (sanitizeQuizSession exTerminalSession).questions.map (fun sq => sq.correctAnswer)
      = exTerminalSession.questions.map (fun q => some q.correctAnswer)
  ∧ (submitAnswer exStoreA "S1" 0 "B").2
      = Except.ok { isCorrect := ("B" == "A"), correctAnswer := "A",
                    explanation := some "E1" } :=
  ⟨(answer_reveal_policy.2.1 exTerminalSession rfl).1,
   answer_reveal_policy.2.2 exStoreA "S1" 0 "B" exActiveSession exQuestion
     (by decide) rfl (by decide)⟩

/-! ## Claim C5 -/

/-- C5 counterexample: for the scenario (10 questions, 7 correct, 150 of 300
expected seconds, no prior 24h wins) the settlement pipeline pays 15.25 and
creates exactly one transaction with reference `REWARD_G1`, but its status is
`success`: no transaction with reference `REWARD_G1` and status `completed`
exists afterwards. -/
theorem reward_scenario_status_counterexample :
    (calculateReward exJSStore 1000000 exGameSession).2 = Except.ok (61 / 4)
  ∧ ((calculateReward exJSStore 1000000 exGameSession).1.transactions.filter
      (fun t => t.reference == "REWARD_G1" && t.status == "completed")).length = 0
  ∧ (calculateReward exJSStore 1000000 exGameSession).1.transactions.map
      (fun t => t.status) = ["success"] := by decide

/-- C5 (amended): for the scenario, base = 14, time bonus = 1.25, streak
bonus = 0, total reward = 15.25; the wallet rises from 0 to exactly 15.25 and
exactly one transaction with the reference `REWARD_G1` is created — with type
`reward` and status `success` (the JS transaction model has no `completed`
status). -/
theorem reward_scenario :
    calculateBaseReward ((7 : ℚ) / 10) 10 = 14
  ∧ calculateTimeBonus 150 10 = 5 / 4
  ∧ calculateStreakBonus exJSStore "U1" 1000000 = 0
  ∧ (calculateReward exJSStore 1000000 exGameSession).2 = Except.ok (61 / 4)
  ∧ jsWalletOf exJSStore "U1" = 0
  ∧ jsWalletOf (calculateReward exJSStore 1000000 exGameSession).1 "U1" = 61 / 4
  ∧ ((calculateReward exJSStore 1000000 exGameSession).1.transactions.filter
      (fun t => t.reference == "REWARD_G1")).length = 1
  ∧ (calculateReward exJSStore 1000000 exGameSession).1.transactions.map
      (fun t => (t.status, t.type)) = [("success", "reward")] := by decide


/-! ## Claim C7 -/

/-- A valid question item has exactly 4 non-empty options and a correct
answer among the four labels. -/
theorem valid_item_facts (q : AIQuestionItem) (h : validQuestionItem q = true) :
    q.options.length = 4 ∧ (∀ o ∈ q.options, 0 < o.length)
  ∧ q.correctAnswer ∈ (["A", "B", "C", "D"] : List String) := by
  simp only [validQuestionItem, Bool.and_eq_true, beq_iff_eq, decide_eq_true_eq,
    List.all_eq_true] at h
  refine ⟨h.1.1.1.1.2, ?_, ?_⟩
  · exact h.1.1.1.2
  · exact List.mem_of_elem_eq_true h.1.1.2

/-- A valid cache entry has between 1 and 20 questions, all valid. -/
theorem valid_entry_facts (e : AIQuestionEntry) (h : validAIQuestionEntry e = true) :
    0 < e.questions.length ∧ e.questions.length ≤ 20
  ∧ ∀ q ∈ e.questions, validQuestionItem q = true := by
  simp only [validAIQuestionEntry, Bool.and_eq_true, decide_eq_true_eq,
    List.all_eq_true] at h
  exact ⟨h.1.1.1.1.1.1.2, h.1.1.1.1.1.2, h.1.1.1.1.2⟩

/-- C7: a question set is persisted into the durable cache only when every
stored question has exactly 4 non-empty options and a correct answer in
{A,B,C,D} and the question count lies in [1,20]; a set failing any of these
checks is rejected with the generation-side caching error and no entry is
written. -/
theorem cacheQuestions_validates (store : CacheStore) (qs : List AIQuestionItem)
    (cat diff : String) (m : AIMetrics) (p : String) (now : Nat) :
    (∀ k, (cacheQuestions store qs cat diff m p now).2 = Except.ok k →
       (cacheQuestions store qs cat diff m p now).1
         = store ++ [mkAIQuestionEntry qs cat diff m p now]
     ∧ (∀ q ∈ (mkAIQuestionEntry qs cat diff m p now).questions,
          q.options.length = 4 ∧ (∀ o ∈ q.options, 0 < o.length)
            ∧ q.correctAnswer ∈ (["A", "B", "C", "D"] : List String))
     ∧ 1 ≤ qs.length ∧ qs.length ≤ 20)
  ∧ ((∃ q ∈ (mkAIQuestionEntry qs cat diff m p now).questions,
        ¬ (q.options.length = 4 ∧ (∀ o ∈ q.options, 0 < o.length)
             ∧ q.correctAnswer ∈ (["A", "B", "C", "D"] : List String)))
       ∨ qs.length = 0 ∨ 20 < qs.length →
     cacheQuestions store qs cat diff m p now
       = (store, Except.error "Failed to cache questions")) := by
  have hlen : (mkAIQuestionEntry qs cat diff m p now).questions.length = qs.length :=
    List.length_map qs normalizeItem
  constructor
  · intro k hok
    cases hval : validAIQuestionEntry (mkAIQuestionEntry qs cat diff m p now) with
    | false =>
      exfalso
      unfold cacheQuestions at hok
      simp [hval] at hok
    | true =>
      have hfacts := valid_entry_facts _ hval
      cases hdup : store.any (fun x =>
          x.cacheKey == (mkAIQuestionEntry qs cat diff m p now).cacheKey) with
      | true =>
        exfalso
        unfold cacheQuestions at hok
        simp [hval, hdup] at hok
      | false =>
        refine ⟨?_, ?_, ?_, ?_⟩
        · unfold cacheQuestions
          simp [hval, hdup]
        · intro q hq
          exact valid_item_facts q (hfacts.2.2 q hq)
        · have := hfacts.1
          rw [hlen] at this
          exact this
        · have := hfacts.2.1
          rw [hlen] at this
          exact this
  · intro hbad
    have hval : validAIQuestionEntry (mkAIQuestionEntry qs cat diff m p now) = false := by
      cases hval : validAIQuestionEntry (mkAIQuestionEntry qs cat diff m p now) with
      | false => rfl
      | true =>
        exfalso
        have hfacts := valid_entry_facts _ hval
        rcases hbad with ⟨q, hq, hnq⟩ | h0 | h20
        · exact hnq (valid_item_facts q (hfacts.2.2 q hq))
        · rw [hlen, h0] at hfacts
          exact absurd hfacts.1 (by decide)
        · rw [hlen] at hfacts
          exact absurd hfacts.2.1 (by omega)
    unfold cacheQuestions
    simp [hval]

/-- C7 witness: a valid single-question set for (science, easy) is persisted,
and the stored question passes all three checks. -/
theorem cacheQuestions_validates_witness :
    (cacheQuestions [] [exAIItem] "Science" "Easy" exMetrics "prompt text" 7200000000).1
      = [] ++ [mkAIQuestionEntry [exAIItem] "Science" "Easy" exMetrics "prompt text" 7200000000]
  ∧ (∀ q ∈ (mkAIQuestionEntry [exAIItem] "Science" "Easy" exMetrics
        "prompt text" 7200000000).questions,
      q.options.length = 4 ∧ (∀ o ∈ q.options, 0 < o.length)
        ∧ q.correctAnswer ∈ (["A", "B", "C", "D"] : List String))
  ∧ 1 ≤ [exAIItem].length ∧ [exAIItem].length ≤ 20 :=
  (cacheQuestions_validates [] [exAIItem] "Science" "Easy" exMetrics
    "prompt text" 7200000000).1 "ai_questions:science:easy:2000" (by decide)

/-! ## Claim C8 -/

/-- C8: the durable cache key depends only on the category, the difficulty
and the hour bucket — two derivations within the same hour bucket agree — and
it has the format `ai_questions:{category}:{difficulty}:{hourBucket}` with
`hourBucket = floor(unixTimeSeconds / 3600)`; every key returned by a
successful `cacheQuestions` call is exactly this derivation on the lowercased
pair. -/
theorem cache_key_hour_bucket (cat diff : String) (t1 t2 : Nat)
    (h : t1 / 3600000 = t2 / 3600000) :
    deriveCacheKey cat diff t1 = deriveCacheKey cat diff t2
  ∧ deriveCacheKey cat diff t1
      = "ai_questions:" ++ cat ++ ":" ++ diff ++ ":" ++ toString (t1 / 1000 / 3600)
  ∧ (∀ (store : CacheStore) (qs : List AIQuestionItem) (m : AIMetrics) (p k : String),
       (cacheQuestions store qs cat diff m p t1).2 = Except.ok k →
         k = deriveCacheKey (strLower cat) (strLower diff) t1) := by
  refine ⟨?_, ?_, ?_⟩
  · unfold deriveCacheKey
    rw [h]
  · have hd : t1 / 1000 / 3600 = t1 / 3600000 := by
      rw [Nat.div_div_eq_div_mul]
    unfold deriveCacheKey
    rw [hd]
  · intro store qs m p k hok
    unfold cacheQuestions at hok
    cases hval : validAIQuestionEntry (mkAIQuestionEntry qs cat diff m p t1) with
    | false =>
      simp [hval] at hok
    | true =>
      cases hdup : store.any (fun x =>
          x.cacheKey == (mkAIQuestionEntry qs cat diff m p t1).cacheKey) with
      | true =>
        simp [hval, hdup] at hok
      | false =>
        simp [hval, hdup] at hok
        exact hok.symm

/-- C8 witness: two timestamps inside hour bucket 2000 give the same key, in
the stated format. -/
theorem cache_key_hour_bucket_witness :
    deriveCacheKey "science" "easy" 7200000123 = deriveCacheKey "science" "easy" 7201000456
  ∧ deriveCacheKey "science" "easy" 7200000123
      = "ai_questions:" ++ "science" ++ ":" ++ "easy" ++ ":"
          ++ toString (7200000123 / 1000 / 3600) :=
  have h := cache_key_hour_bucket "science" "easy" 7200000123 7201000456 (by decide)
  ⟨h.1, h.2.1⟩

/-! ## Claim C9 -/

/-- C9 counterexample: the schema declares a TTL index (`expires: 0`) on
`expiresAt`, so the store deletes an expired entry outright — it is not
retained for audit — whereas the service sweep on the same store only flips
`isActive`. -/
theorem ttl_deletes_counterexample :
    exExpiredEntry.expiresAt = 100
  ∧ ttlSweep 200 [exExpiredEntry] = []
  ∧ (cleanupExpiredCache 200 [exExpiredEntry]).1
      = [{ exExpiredEntry with isActive := false }] := by decide

/-- C9 (amended): the service-level cache operations never delete:
`cleanupExpiredCache` and `invalidateCache` keep every entry (same length,
all fields except `isActive` unchanged), and the read-hit path keeps every
entry as well; deletion of expired entries happens only through the MongoDB
TTL index declared on `expiresAt`. -/
theorem cache_soft_invalidate (store : CacheStore) (now : Nat) (cat : String)
    (odiff : Option String) (dc dd : String) :
    (cleanupExpiredCache now store).1.map forgetActive = store.map forgetActive
  ∧ (cleanupExpiredCache now store).1.length = store.length
  ∧ (invalidateCache store cat odiff).1.map forgetActive = store.map forgetActive
  ∧ (invalidateCache store cat odiff).1.length = store.length
  ∧ (getCachedQuestions store dc dd now).1.map (fun e => e.cacheKey)
      = store.map (fun e => e.cacheKey)
  ∧ (getCachedQuestions store dc dd now).1.length = store.length := by
  have hclean : (cleanupExpiredCache now store).1.map forgetActive
      = store.map forgetActive := by
    simp only [cleanupExpiredCache, List.map_map]
    apply List.map_congr_left
    intro e _
    by_cases h : (e.isActive && decide (e.expiresAt ≤ now)) = true
    · simp only [Function.comp_apply, if_pos h]
      rfl
    · simp only [Function.comp_apply, if_neg h]
  have hinv : (invalidateCache store cat odiff).1.map forgetActive
      = store.map forgetActive := by
    simp only [invalidateCache, List.map_map]
    apply List.map_congr_left
    intro e _
    by_cases h : (e.category == strLower cat && e.isActive
        && (match odiff with
            | none => true
            | some d => e.difficulty == strLower d)) = true
    · simp only [Function.comp_apply, if_pos h]
      rfl
    · simp only [Function.comp_apply, if_neg h]
  have hget : (getCachedQuestions store dc dd now).1.map (fun e => e.cacheKey)
      = store.map (fun e => e.cacheKey) := by
    unfold getCachedQuestions
    cases hpick : (store.filter (fun e =>
        e.category == strLower dc && e.difficulty == strLower dd
          && e.isActive)).foldl pickLatest none with
    | none => rfl
    | some e =>
      simp only [List.map_map]
      apply List.map_congr_left
      intro x _
      by_cases h : (x.cacheKey == e.cacheKey) = true
      · simp only [Function.comp_apply, if_pos h]
      · simp only [Function.comp_apply, if_neg h]
  have hlen1 : (cleanupExpiredCache now store).1.length = store.length := by
    have := congrArg List.length hclean
    simpa using this
  have hlen2 : (invalidateCache store cat odiff).1.length = store.length := by
    have := congrArg List.length hinv
    simpa using this
  have hlen3 : (getCachedQuestions store dc dd now).1.length = store.length := by
    have := congrArg List.length hget
    simpa using this
  exact ⟨hclean, hlen1, hinv, hlen2, hget, hlen3⟩

end GeniusGate
